import Mathlib

/-
Verification development for solver.py, a benchmarking harness that runs
three sparse direct solver backends (mkl via pypardiso, superlu and umfpack
via scipy) over a corpus of Matrix Market files and logs results to a CSV
file.  The Python source is shallowly embedded below: external library
calls (the backend solves, file reads, the clock) become explicit oracle
parameters, exceptions become an Except type, and filesystem state becomes
an explicit association list from paths to file contents.
-/

namespace Solver

/-- Storage layout tag of a scipy sparse matrix. -/
inductive Layout
  | coo
  | csr
  | csc
deriving DecidableEq

/-- Shallow embedding of a scipy sparse matrix: shape, entries and a
storage layout tag. -/
structure SpMatrix where
  rows : Nat
  cols : Nat
  entry : Nat → Nat → ℚ
  layout : Layout

/-- Dense vectors (numpy arrays) as lists of rationals. -/
abbrev Vec := List ℚ

/-- The Python exceptions that appear in solver.py: ValueError raised by
the validation branches, the InvalidMatrixFormat class declared at lines
27 to 29 of the source, NameError for a local variable referenced before
assignment, and MemoryError from the umfpack backend. -/
inductive PyError
  | valueError (msg : String)
  | invalidMatrixFormat (msg : String)
  | nameError (msg : String)
  | memoryError
deriving DecidableEq

/-- The tocsr conversion of a scipy matrix: same shape and entries,
row compressed layout. -/
def tocsr (m : SpMatrix) : SpMatrix :=
  { m with layout := Layout.csr }

/-- The tocsc conversion of a scipy matrix: same shape and entries,
column compressed layout. -/
def tocsc (m : SpMatrix) : SpMatrix :=
  { m with layout := Layout.csc }

/-- Message of the ValueError raised by load_matrix at lines 54 to 56. -/
def invalid_format_msg (fmt : String) : String :=
  "Invalid argument matrix_format. Should be one of csr, csc, got " ++ fmt ++ " instead."

/-- Embedding of load_matrix (source lines 32 to 56).  The ambient
filesystem read performed by scipy.io.mmread is the oracle parameter
read; the second component of the result is the list of file paths
actually read, so that absence of I/O is observable. -/
def load_matrix (read : String → SpMatrix) (path : String) (matrix_format : String) :
    Except PyError SpMatrix × List String :=
  if matrix_format = "csr" then (Except.ok (tocsr (read path)), [path])
  else if matrix_format = "csc" then (Except.ok (tocsc (read path)), [path])
  else (Except.error (PyError.valueError (invalid_format_msg matrix_format)), [])

/-- np.ones for a vector of the given length. -/
def np_ones (n : Nat) : Vec :=
  List.replicate n 1

/-- Sparse matrix times dense vector, the meaning of the matmul operator
used by the source on a scipy sparse matrix and a numpy vector. -/
def spmv (m : SpMatrix) (v : Vec) : Vec :=
  (List.range m.rows).map (fun i => ∑ j ∈ Finset.range m.cols, m.entry i j * v.getD j 0)

/-- Embedding of create_b (source lines 59 to 65): xe is the all ones
vector of length equal to the column count of the matrix, and b is the
sparse matrix times dense vector product of the matrix with xe. -/
def create_b (matrix : SpMatrix) : Vec :=
  spmv matrix (np_ones matrix.cols)

/-- Elementwise difference of two numpy vectors of equal length. -/
def vsub (a b : Vec) : Vec :=
  List.zipWith (fun x y => x - y) a b

/-- Sum of squares of the components of a vector. -/
def sum_sq (v : Vec) : ℚ :=
  (v.map (fun q => q * q)).sum

/-- Euclidean norm, the meaning of np.linalg.norm with ord equal to 2. -/
noncomputable def norm2 (v : Vec) : ℝ :=
  Real.sqrt ((sum_sq v : ℚ) : ℝ)

/-- Embedding of get_relative_error (source lines 68 to 72). -/
noncomputable def get_relative_error (xe x : Vec) : ℝ :=
  norm2 (vsub xe x) / norm2 xe

/-- Oracle environment for solve_with_profiling: the three external
backend solve routines and the two clock readings taken around the solve.
The umfpack backend may raise MemoryError, modelled by returning none;
the try block in the source wraps only the umfpack call, so the other
two backends are modelled as total functions. -/
structure SolverEnv where
  mklSolve : SpMatrix → Vec → Vec
  superluSolve : SpMatrix → Vec → Vec
  umfpackSolve : SpMatrix → Vec → Option Vec
  startTime : ℚ
  endTime : ℚ

/-- The dictionary returned by solve_with_profiling (source lines 139
to 148). -/
structure RunResult where
  matrix_name : String
  matrix_type : String
  matrix_dimensions : String
  start_time : ℚ
  end_time : ℚ
  relative_error : ℝ
  solver_library : String
  umfpack_error : Nat

/-- The record built at the end of solve_with_profiling (source lines
133 to 148): xe is the all ones vector of length equal to the column
count of A, the relative error is the computed norm ratio unless the
umfpack memory error flag is set, in which case it is the sentinel -1,
and the umfpack_error field is the flag as an integer. -/
noncomputable def mk_run_result (A : SpMatrix) (matrix_name matrix_type : String)
    (t0 t1 : ℚ) (solver_library : String) (umfpack_mem_error : Bool) (x : Vec) : RunResult :=
  { matrix_name := matrix_name
    matrix_type := matrix_type
    matrix_dimensions := toString A.rows ++ "x" ++ toString A.cols
    start_time := t0
    end_time := t1
    relative_error := if umfpack_mem_error then -1 else get_relative_error (np_ones A.cols) x
    solver_library := solver_library
    umfpack_error := if umfpack_mem_error then 1 else 0 }

/-- Message of the ValueError raised by solve_with_profiling at lines
129 to 131 (the spelling mistake in shoud is in the source). -/
def wrong_library_msg (lib : String) : String :=
  "Wrong value for parameter solver_library, shoud be in mkl, umfpack, superlu, got " ++ lib ++ " instead."

/-- Embedding of solve_with_profiling (source lines 75 to 148).  The
branch order mirrors the source: mkl, then superlu, then umfpack, then
the ValueError branch.  Only the umfpack call sits in a try block
catching MemoryError; on that condition the flag is set and no solution
is produced, and the result record is still returned normally. -/
noncomputable def solve_with_profiling (env : SolverEnv) (A : SpMatrix) (b : Vec)
    (matrix_name matrix_type solver_library : String) : Except PyError RunResult :=
  if solver_library = "mkl" then
    Except.ok (mk_run_result A matrix_name matrix_type env.startTime env.endTime
      solver_library false (env.mklSolve A b))
  else if solver_library = "superlu" then
    Except.ok (mk_run_result A matrix_name matrix_type env.startTime env.endTime
      solver_library false (env.superluSolve A b))
  else if solver_library = "umfpack" then
    match env.umfpackSolve A b with
    | some x => Except.ok (mk_run_result A matrix_name matrix_type env.startTime env.endTime
        solver_library false x)
    | none => Except.ok (mk_run_result A matrix_name matrix_type env.startTime env.endTime
        solver_library true [])
  else
    Except.error (PyError.valueError (wrong_library_msg solver_library))

/-- The RunResult produced by solve_with_profiling on the three valid
backends (on which the function never throws). -/
noncomputable def solve_result (env : SolverEnv) (A : SpMatrix) (b : Vec)
    (matrix_name matrix_type solver_library : String) : RunResult :=
  if solver_library = "mkl" then
    mk_run_result A matrix_name matrix_type env.startTime env.endTime
      solver_library false (env.mklSolve A b)
  else if solver_library = "superlu" then
    mk_run_result A matrix_name matrix_type env.startTime env.endTime
      solver_library false (env.superluSolve A b)
  else
    match env.umfpackSolve A b with
    | some x => mk_run_result A matrix_name matrix_type env.startTime env.endTime
        solver_library false x
    | none => mk_run_result A matrix_name matrix_type env.startTime env.endTime
        solver_library true []

/-- Message of the Python UnboundLocalError raised when the loop body of
main reads the variable A while no branch of the load step assigned it. -/
def unbound_A_msg : String :=
  "local variable A referenced before assignment"

/-- The matrix loaded by one iteration of the loop body of main for a
valid library value: csr layout for mkl, csc layout otherwise (source
lines 186 to 189). -/
def loaded_A (read : String → SpMatrix) (library path : String) : SpMatrix :=
  if library = "mkl" then tocsr (read path) else tocsc (read path)

/-- The RunResult produced by one iteration of the loop body of main for
a valid library value: load the matrix in the layout the backend needs,
build the right hand side with create_b, solve, with the matrix name
taken as the last component of the path. -/
noncomputable def iter_result (env : SolverEnv) (read : String → SpMatrix)
    (library matrices_type path : String) : RunResult :=
  solve_result env (loaded_A read library path) (create_b (loaded_A read library path))
    ((path.splitOn "/").getLastD "") matrices_type library

/-- One iteration of the inner loop of main (source lines 184 to 201):
compute the matrix name, load the matrix in the layout required by the
library, then use A.  When no branch assigned A, the first use of A
raises the unbound local variable error, before solve_with_profiling is
ever called.  The second component is the list of file paths read. -/
noncomputable def main_iter (env : SolverEnv) (read : String → SpMatrix)
    (library matrices_type path : String) : Except PyError RunResult × List String :=
  if library = "mkl" then
    match load_matrix read path "csr" with
    | (Except.ok A, eff) =>
        (solve_with_profiling env A (create_b A) ((path.splitOn "/").getLastD "")
          matrices_type library, eff)
    | (Except.error e, eff) => (Except.error e, eff)
  else if library = "umfpack" ∨ library = "superlu" then
    match load_matrix read path "csc" with
    | (Except.ok A, eff) =>
        (solve_with_profiling env A (create_b A) ((path.splitOn "/").getLastD "")
          matrices_type library, eff)
    | (Except.error e, eff) => (Except.error e, eff)
  else
    (Except.error (PyError.nameError unbound_A_msg), [])

/-- The inner loop of main over the matrix paths: append one RunResult
per path; an exception aborts the loop and propagates. -/
noncomputable def run_matrices (env : SolverEnv) (read : String → SpMatrix)
    (library matrices_type : String) : List String → Except PyError (List RunResult) × List String
  | [] => (Except.ok [], [])
  | path :: rest =>
    match main_iter env read library matrices_type path with
    | (Except.error e, eff) => (Except.error e, eff)
    | (Except.ok r, eff) =>
      match run_matrices env read library matrices_type rest with
      | (Except.error e, eff2) => (Except.error e, eff ++ eff2)
      | (Except.ok rs, eff2) => (Except.ok (r :: rs), eff ++ eff2)

/-- The outer loop of main over the trial indices. -/
noncomputable def main_runs (env : SolverEnv) (read : String → SpMatrix)
    (library matrices_type : String) (matrices : List String) :
    Nat → Except PyError (List RunResult) × List String
  | 0 => (Except.ok [], [])
  | Nat.succ k =>
    match run_matrices env read library matrices_type matrices with
    | (Except.error e, eff) => (Except.error e, eff)
    | (Except.ok rs, eff) =>
      match main_runs env read library matrices_type matrices k with
      | (Except.error e, eff2) => (Except.error e, eff ++ eff2)
      | (Except.ok rs2, eff2) => (Except.ok (rs ++ rs2), eff ++ eff2)

/-- Embedding of main (source lines 151 to 204): num_runs trials in the
outer loop, the matrix paths in the inner loop, accumulating one
RunResult per iteration.  Like the Python range, a non positive trial
count yields zero trials. -/
noncomputable def main (env : SolverEnv) (read : String → SpMatrix)
    (matrices : List String) (matrices_type library : String) (num_runs : Int) :
    Except PyError (List RunResult) × List String :=
  main_runs env read library matrices_type matrices num_runs.toNat

/-- The operating system family the process runs on. -/
inductive OS
  | linux
  | windowsOS
  | darwin
deriving DecidableEq

/-- The Python function platform.system, which returns the OS family
name when called. -/
def platform_system (os : OS) : String :=
  match os with
  | OS.linux => "Linux"
  | OS.windowsOS => "Windows"
  | OS.darwin => "Darwin"

/-- Python values as they take part in the comparison at source line
225: a string, or a function object such as platform.system itself. -/
inductive PyObj
  | pyStr (s : String)
  | pyFunc (f : OS → String)

/-- Python equality between such values: two strings compare by content;
a function object never equals a string (and the source never compares
two function objects, so false is returned there as well). -/
def pyEq : PyObj → PyObj → Bool
  | PyObj.pyStr a, PyObj.pyStr b => a == b
  | _, _ => false

/-- Embedding of source line 225: the source compares the function
object platform.system itself, not its call result, against the string
Linux.  The os parameter is the ambient OS family; note that the
comparison never consults it. -/
def system_type (os : OS) : String :=
  if pyEq (PyObj.pyFunc platform_system) (PyObj.pyStr "Linux") then "ubuntu" else "windows"

/-- The platform tag as the spec describes it: the OS family name is
obtained by calling the detection function and compared to Linux, giving
the tag ubuntu on Linux and windows on every other family. -/
def system_type_intended (os : OS) : String :=
  if platform_system os = "Linux" then "ubuntu" else "windows"

/-- One CSV data row as assembled at source lines 236 to 246. -/
structure CsvRow where
  matrix : String
  dimensions : String
  type : String
  start_time : ℚ
  end_time : ℚ
  rel_error : ℝ
  system : String
  library : String
  umfpack_error : Nat

/-- One line of the result file: the header line or a data row. -/
inductive Line
  | header
  | row (r : CsvRow)

/-- Filesystem state: an association list from file paths to file
contents, each content a list of lines. -/
abbrev FS := List (String × List Line)

/-- Look up the content of a file, none when the file does not exist. -/
def fsLookup : FS → String → Option (List Line)
  | [], _ => none
  | (q, c) :: rest, p => if q = p then some c else fsLookup rest p

/-- Create or truncate a file with the given content, the effect of
opening it in write mode and writing the content. -/
def fsSet : FS → String → List Line → FS
  | [], p, c => [(p, c)]
  | (q, d) :: rest, p, c =>
    if q = p then (q, c) :: rest else (q, d) :: fsSet rest p c

/-- Append lines to a file, the effect of opening it in append mode and
writing the lines; the file is created when absent. -/
def fsAppend (fs : FS) (p : String) (ls : List Line) : FS :=
  fsSet fs p ((fsLookup fs p).getD [] ++ ls)

/-- The fixed CSV column schema (source lines 213 to 223). -/
def csv_fields : List String :=
  ["matrix", "dimensions", "type", "start_time", "end_time", "rel_error",
   "system", "library", "umfpack_error"]

/-- The CSV data row built from one RunResult (source lines 236 to 246). -/
def result_row (stype : String) (r : RunResult) : CsvRow :=
  { matrix := r.matrix_name
    dimensions := r.matrix_dimensions
    type := r.matrix_type
    start_time := r.start_time
    end_time := r.end_time
    rel_error := r.relative_error
    system := stype
    library := r.solver_library
    umfpack_error := r.umfpack_error }

/-- The destination path of the result file (source line 228). -/
def log_filepath (os : OS) (filename : String) : String :=
  "./" ++ system_type os ++ "-" ++ filename ++ ".csv"

/-- Embedding of log_results (source lines 207 to 254): return at once
on an empty result list; otherwise create the file with the header line
when it does not exist, then append one data row per result. -/
def log_results (results : List RunResult) (os : OS) (filename : String) (fs : FS) : FS :=
  if results.isEmpty then fs
  else
    let filepath := log_filepath os filename
    let fs1 := if (fsLookup fs filepath).isSome then fs else fsSet fs filepath [Line.header]
    fsAppend fs1 filepath (results.map (fun r => Line.row (result_row (system_type os) r)))

/-- Message of the ValueError raised at lines 268 to 270 for a non
positive run count. -/
def runs_msg (n : Int) : String :=
  "Number of runs must be >= 1, got " ++ toString n ++ " instead"

/-- Message of the ValueError raised at lines 261 to 264 for an invalid
library name. -/
def library_msg (lib : String) : String :=
  "Accepted values for library are mkl, superlu, umfpack, got " ++ lib ++ " instead."

/-- Message of the ValueError raised at lines 271 to 275 for a wrong
argument count. -/
def usage_msg : String :=
  "Please, provide a choice for the solver library an run number."

/-- The numeric value of a decimal digit character. -/
def char_digit (c : Char) : Option Nat :=
  if c.isDigit then some (c.toNat - 48) else none

/-- Accumulate decimal digits left to right; fail on a non digit. -/
def parse_nat_core : Nat → List Char → Option Nat
  | acc, [] => some acc
  | acc, c :: cs =>
    match char_digit c with
    | some d => parse_nat_core (10 * acc + d) cs
    | none => none

/-- Decimal integer parsing: an optional leading minus sign followed by
at least one digit. -/
def str_to_int (s : String) : Option Int :=
  match s.toList with
  | [] => none
  | '-' :: rest =>
    match rest with
    | [] => none
    | _ => (parse_nat_core 0 rest).map (fun m => -(m : Int))
  | l => (parse_nat_core 0 l).map (fun m => (m : Int))

/-- The Python int constructor on a string: the parsed integer, or a
ValueError on an unparsable literal. -/
def parse_int (s : String) : Except PyError Int :=
  match str_to_int s with
  | some n => Except.ok n
  | none => Except.error (PyError.valueError ("invalid literal for int with base 10: " ++ s))

/-- The argument validation of the main script block (source lines 257
to 275): exactly three argv entries, a library name among the three
accepted ones, then the parsed run count, which must be at least 1. -/
def validate_args (argv : List String) : Except PyError (String × Int) :=
  if argv.length = 3 then
    let library := argv.getD 1 ""
    if library = "umfpack" ∨ library = "superlu" ∨ library = "mkl" then
      match parse_int (argv.getD 2 "") with
      | Except.ok n_runs =>
        if 1 ≤ n_runs then Except.ok (library, n_runs)
        else Except.error (PyError.valueError (runs_msg n_runs))
      | Except.error e => Except.error e
    else Except.error (PyError.valueError (library_msg library))
  else Except.error (PyError.valueError usage_msg)

/-- Insert a string into a sorted list of strings. -/
def insertSorted (s : String) : List String → List String
  | [] => [s]
  | t :: ts => if s ≤ t then s :: t :: ts else t :: insertSorted s ts

/-- The Python sorted builtin on a list of strings. -/
def sortStrs : List String → List String
  | [] => []
  | s :: ss => insertSorted s (sortStrs ss)

/-- Embedding of the main script block after the interactive prompt
(source lines 287 to 296): validate the arguments, run main over the
sorted positive definite corpus and the sorted non positive definite
corpus, then log both result lists.  The two glob results are oracle
parameters; the second component of the result is the list of matrix
file paths read, empty when validation fails before any load. -/
noncomputable def script_run (env : SolverEnv) (read : String → SpMatrix)
    (glob_sym glob_unsym : List String) (argv : List String) (os : OS) (fs : FS) :
    Except PyError FS × List String :=
  match validate_args argv with
  | Except.error e => (Except.error e, [])
  | Except.ok (library, n_runs) =>
    match main env read (sortStrs glob_sym) "def_pos" library n_runs with
    | (Except.error e, eff) => (Except.error e, eff)
    | (Except.ok results_sdf, eff1) =>
      match main env read (sortStrs glob_unsym) "non_def_pos" library n_runs with
      | (Except.error e, eff2) => (Except.error e, eff1 ++ eff2)
      | (Except.ok results_unsym, eff2) =>
        let fs1 := log_results results_sdf os "python-result-log" fs
        let fs2 := log_results results_unsym os "python-result-log" fs1
        (Except.ok fs2, eff1 ++ eff2)

/-- Whether an Except value is an error. -/
def is_err {α : Type} : Except PyError α → Bool
  | Except.error _ => true
  | Except.ok _ => false

/-- Whether an Except value is an InvalidMatrixFormat error. -/
def is_invalid_matrix_format_err {α : Type} : Except PyError α → Bool
  | Except.error (PyError.invalidMatrixFormat _) => true
  | _ => false

/-- Whether an Except value is a success. -/
def isOkE {α : Type} : Except PyError α → Bool
  | Except.ok _ => true
  | Except.error _ => false

/-- A concrete read oracle: every path holds a one by one matrix with
the single entry 1, in coo layout as mmread returns it. -/
def read0 : String → SpMatrix :=
  fun _ => { rows := 1, cols := 1, entry := fun _ _ => 1, layout := Layout.coo }

/-- A concrete solver environment: the mkl and superlu oracles echo the
right hand side, the umfpack oracle always raises MemoryError. -/
def env0 : SolverEnv :=
  { mklSolve := fun _ b => b
    superluSolve := fun _ b => b
    umfpackSolve := fun _ _ => none
    startTime := 0
    endTime := 0 }

/-- A concrete solver environment whose umfpack oracle succeeds and
echoes the right hand side. -/
def env1 : SolverEnv :=
  { mklSolve := fun _ b => b
    superluSolve := fun _ b => b
    umfpackSolve := fun _ b => some b
    startTime := 0
    endTime := 0 }

/-- The concrete matrix loaded from the read0 oracle in csc layout. -/
def A0 : SpMatrix :=
  tocsc (read0 "a.mtx")

/-- A concrete RunResult, the one produced by env1 with the superlu
backend on A0. -/
noncomputable def rr0 : RunResult :=
  mk_run_result A0 "a.mtx" "def_pos" 0 0 "superlu" false (create_b A0)

/- ------------------------------------------------------------------ -/
/- Theorems.                                                          -/
/- ------------------------------------------------------------------ -/

/-- The relative error computed by get_relative_error is a quotient of
two square roots, hence nonnegative. -/
theorem get_relative_error_nonneg (xe x : Vec) : 0 ≤ get_relative_error xe x :=
  div_nonneg (Real.sqrt_nonneg _) (Real.sqrt_nonneg _)

/-- On the three valid backends solve_with_profiling never throws: it
returns the record described by solve_result. -/
theorem solve_with_profiling_valid (env : SolverEnv) (A : SpMatrix) (b : Vec)
    (nm mt lib : String)
    (h : lib = "mkl" ∨ lib = "superlu" ∨ lib = "umfpack") :
    solve_with_profiling env A b nm mt lib = Except.ok (solve_result env A b nm mt lib) := by
  rcases h with h | h | h <;> subst h
  · simp [solve_with_profiling, solve_result]
  · simp [solve_with_profiling, solve_result]
  · simp only [solve_with_profiling, solve_result]
    cases hu : env.umfpackSolve A b <;> simp [hu]

/-- On the three valid backends one iteration of the loop body of main
loads the matrix from its path, builds the right hand side, solves and
produces exactly one RunResult. -/
theorem main_iter_valid (env : SolverEnv) (read : String → SpMatrix)
    (lib mt p : String)
    (h : lib = "mkl" ∨ lib = "superlu" ∨ lib = "umfpack") :
    main_iter env read lib mt p = (Except.ok (iter_result env read lib mt p), [p]) := by
  rcases h with h | h | h <;> subst h
  · simp [main_iter, load_matrix, iter_result, loaded_A,
      solve_with_profiling_valid env _ _ _ mt "mkl" (Or.inl rfl)]
  · simp [main_iter, load_matrix, iter_result, loaded_A,
      solve_with_profiling_valid env _ _ _ mt "superlu" (Or.inr (Or.inl rfl))]
  · simp [main_iter, load_matrix, iter_result, loaded_A,
      solve_with_profiling_valid env _ _ _ mt "umfpack" (Or.inr (Or.inr rfl))]

/-- On the three valid backends the inner loop of main appends one
RunResult per matrix path, in order, reading each path once. -/
theorem run_matrices_valid (env : SolverEnv) (read : String → SpMatrix)
    (lib mt : String)
    (h : lib = "mkl" ∨ lib = "superlu" ∨ lib = "umfpack") (ms : List String) :
    run_matrices env read lib mt ms
      = (Except.ok (ms.map (iter_result env read lib mt)), ms) := by
  induction ms with
  | nil => rfl
  | cons p ps ih => simp [run_matrices, main_iter_valid env read lib mt p h, ih]

/-- On the three valid backends the outer loop of main concatenates the
per trial result lists, re-reading every matrix path on every trial. -/
theorem main_runs_valid (env : SolverEnv) (read : String → SpMatrix)
    (lib mt : String) (ms : List String)
    (h : lib = "mkl" ∨ lib = "superlu" ∨ lib = "umfpack") (k : Nat) :
    main_runs env read lib mt ms k
      = (Except.ok (List.flatten (List.replicate k (ms.map (iter_result env read lib mt)))),
         List.flatten (List.replicate k ms)) := by
  induction k with
  | zero => rfl
  | succ k ih =>
    simp [main_runs, run_matrices_valid env read lib mt h ms, ih, List.replicate_succ]

/-- Length of the concatenation of k copies of a list. -/
theorem join_replicate_length {α : Type} (k : Nat) (l : List α) :
    (List.flatten (List.replicate k l)).length = k * l.length := by
  induction k with
  | zero => simp
  | succ k ih => simp [List.replicate_succ, ih]; ring

/-- Looking up a file right after it was written finds the written
content. -/
theorem fsLookup_fsSet_self (fs : FS) (p : String) (c : List Line) :
    fsLookup (fsSet fs p c) p = some c := by
  induction fs with
  | nil => simp [fsSet, fsLookup]
  | cons hd tl ih =>
    obtain ⟨q, d⟩ := hd
    by_cases h : q = p
    · simp [fsSet, fsLookup, h]
    · simp [fsSet, fsLookup, h, ih]

/-- Logging a nonempty result list to a fresh destination creates the
file with the header line followed by one data row per result. -/
theorem log_results_fresh (os : OS) (fn : String) (fs : FS) (r : List RunResult)
    (hfresh : fsLookup fs (log_filepath os fn) = none) (hr : r ≠ []) :
    fsLookup (log_results r os fn fs) (log_filepath os fn)
      = some (Line.header :: r.map (fun x => Line.row (result_row (system_type os) x))) := by
  have hre : ¬ r.isEmpty := by simp [hr]
  simp [log_results, hre, hfresh, fsAppend, fsLookup_fsSet_self]

/-- Logging to an existing destination appends one data row per result
after the existing content, without rewriting the header. -/
theorem log_results_existing (os : OS) (fn : String) (g : FS) (old : List Line)
    (r : List RunResult)
    (hg : fsLookup g (log_filepath os fn) = some old) :
    fsLookup (log_results r os fn g) (log_filepath os fn)
      = some (old ++ r.map (fun x => Line.row (result_row (system_type os) x))) := by
  by_cases hr : r = []
  · subst hr; simp [log_results, hg]
  · have hre : ¬ r.isEmpty := by simp [hr]
    simp [log_results, hre, hg, fsAppend, fsLookup_fsSet_self]

/-- C2 (code bug): the platform tag is the constant string windows no
matter which OS family the process runs on, because source line 225
compares the function object platform.system itself, not its call
result, to the string Linux; on a Linux host the tag the spec requires
is ubuntu, while the code produces windows. -/
theorem system_type_ignores_os :
    system_type OS.linux = "windows"
    ∧ system_type_intended OS.linux = "ubuntu"
    ∧ ∀ os : OS, system_type os = "windows" :=
  ⟨rfl, rfl, fun _ => rfl⟩

/-- C3: create_b returns the sparse matrix times dense vector product of
the matrix with the all ones vector of length equal to the column count
of the matrix, so componentwise the right hand side is the row sum of the
matrix entries. -/
theorem create_b_matrix_times_ones (A : SpMatrix) :
    create_b A = spmv A (np_ones A.cols)
    ∧ (np_ones A.cols).length = A.cols
    ∧ ∀ i, i < A.rows → (create_b A).getD i 0 = ∑ j ∈ Finset.range A.cols, A.entry i j := by
  refine ⟨rfl, List.length_replicate _ _, ?_⟩
  intro i hi
  have h1 : (create_b A).getD i 0
      = ∑ j ∈ Finset.range A.cols, A.entry i j * (np_ones A.cols).getD j 0 := by
    simp [create_b, spmv, List.getD, hi]
  rw [h1]
  refine Finset.sum_congr rfl ?_
  intro j hj
  have h2 : (np_ones A.cols).getD j 0 = 1 := by
    simp [np_ones, List.getD, List.mem_range.mp hj]
  rw [h2, mul_one]

/-- Witness for C3 at the concrete matrix A0 and row index 0. -/
theorem create_b_matrix_times_ones_witness :
    (create_b A0).getD 0 0 = ∑ j ∈ Finset.range A0.cols, A0.entry 0 j :=
  (create_b_matrix_times_ones A0).2.2 0 (by decide)

/-- C4 (amended): for every layout argument other than csr and csc,
load_matrix raises a ValueError before performing any file I/O: the
error value is the ValueError with the invalid format message, and the
list of paths read is empty. -/
theorem load_matrix_invalid_format (read : String → SpMatrix) (path fmt : String)
    (h1 : fmt ≠ "csr") (h2 : fmt ≠ "csc") :
    load_matrix read path fmt
      = (Except.error (PyError.valueError (invalid_format_msg fmt)), []) := by
  simp [load_matrix, h1, h2]

/-- Witness for C4 at the concrete layout argument coo. -/
theorem load_matrix_invalid_format_witness :
    load_matrix read0 "m.mtx" "coo"
      = (Except.error (PyError.valueError (invalid_format_msg "coo")), []) :=
  load_matrix_invalid_format read0 "m.mtx" "coo" (by decide) (by decide)

/-- Counterexample for C4 as stated: on the layout argument coo the
function does fail before any I/O, but the error raised is not the
InvalidMatrixFormat exception declared at source lines 27 to 29; that
class is never raised, a plain ValueError is. -/
theorem load_matrix_coo_not_invalid_matrix_format :
    is_err (load_matrix read0 "m.mtx" "coo").1 = true
    ∧ is_invalid_matrix_format_err (load_matrix read0 "m.mtx" "coo").1 = false
    ∧ (load_matrix read0 "m.mtx" "coo").2 = [] :=
  ⟨rfl, rfl, rfl⟩

/-- C6: invoking the result logger on an empty result sequence leaves
the filesystem state unchanged: no file is created and no existing file
is modified. -/
theorem log_results_empty_noop (os : OS) (filename : String) (fs : FS) :
    log_results [] os filename fs = fs :=
  rfl

/-- C8: in every RunResult produced by solve_with_profiling the relative
error equals the sentinel -1 exactly when the umfpack_error flag is 1,
and when the flag is 0 the relative error is a nonnegative norm ratio,
so the sentinel can never be confused with a genuine error value. -/
theorem solve_sentinel_iff (env : SolverEnv) (A : SpMatrix) (b : Vec)
    (nm mt lib : String) (r : RunResult)
    (hok : solve_with_profiling env A b nm mt lib = Except.ok r) :
    (r.relative_error = -1 ↔ r.umfpack_error = 1)
    ∧ (r.umfpack_error = 0 → 0 ≤ r.relative_error) := by
  unfold solve_with_profiling at hok
  split_ifs at hok with h1 h2 h3
  · injection hok with h; subst h
    have h0 := get_relative_error_nonneg (np_ones A.cols) (env.mklSolve A b)
    simp only [mk_run_result, Bool.false_eq_true, if_false]
    refine ⟨⟨fun he => absurd he (by intro he; linarith), fun hc => absurd hc (by decide)⟩,
      fun _ => h0⟩
  · injection hok with h; subst h
    have h0 := get_relative_error_nonneg (np_ones A.cols) (env.superluSolve A b)
    simp only [mk_run_result, Bool.false_eq_true, if_false]
    refine ⟨⟨fun he => absurd he (by intro he; linarith), fun hc => absurd hc (by decide)⟩,
      fun _ => h0⟩
  · cases hu : env.umfpackSolve A b with
    | some x =>
      rw [hu] at hok
      injection hok with h; subst h
      have h0 := get_relative_error_nonneg (np_ones A.cols) x
      simp only [mk_run_result, Bool.false_eq_true, if_false]
      refine ⟨⟨fun he => absurd he (by intro he; linarith), fun hc => absurd hc (by decide)⟩,
        fun _ => h0⟩
    | none =>
      rw [hu] at hok
      injection hok with h; subst h
      refine ⟨by simp [mk_run_result], fun hc => ?_⟩
      simp [mk_run_result] at hc

/-- Witness for C8: the concrete record produced by a simulated umfpack
memory failure on A0 carries the sentinel and the flag together. -/
theorem solve_sentinel_iff_witness :
    ((mk_run_result A0 "a.mtx" "def_pos" 0 0 "umfpack" true []).relative_error = -1
      ↔ (mk_run_result A0 "a.mtx" "def_pos" 0 0 "umfpack" true []).umfpack_error = 1)
    ∧ ((mk_run_result A0 "a.mtx" "def_pos" 0 0 "umfpack" true []).umfpack_error = 0
      → 0 ≤ (mk_run_result A0 "a.mtx" "def_pos" 0 0 "umfpack" true []).relative_error) :=
  solve_sentinel_iff env0 A0 (create_b A0) "a.mtx" "def_pos" "umfpack"
    (mk_run_result A0 "a.mtx" "def_pos" 0 0 "umfpack" true []) rfl

/-- C1: when the umfpack backend raises its memory error on a matrix,
solve_with_profiling still returns a RunResult normally, with the
sentinel -1 as relative error and the flag 1, and no exception escapes,
so the inner loop of main proceeds to the next matrix: the whole loop
still yields one RunResult per path. -/
theorem umfpack_oom_recovered (env : SolverEnv) (read : String → SpMatrix)
    (mt p : String) (ps : List String)
    (hmem : env.umfpackSolve (tocsc (read p)) (create_b (tocsc (read p))) = none) :
    solve_with_profiling env (tocsc (read p)) (create_b (tocsc (read p)))
        ((p.splitOn "/").getLastD "") mt "umfpack"
      = Except.ok (mk_run_result (tocsc (read p)) ((p.splitOn "/").getLastD "") mt
          env.startTime env.endTime "umfpack" true [])
    ∧ (iter_result env read "umfpack" mt p).relative_error = -1
    ∧ (iter_result env read "umfpack" mt p).umfpack_error = 1
    ∧ (run_matrices env read "umfpack" mt (p :: ps)).1
      = Except.ok (iter_result env read "umfpack" mt p
          :: ps.map (iter_result env read "umfpack" mt)) := by
  refine ⟨?_, ?_, ?_, ?_⟩
  · simp [solve_with_profiling, hmem]
  · simp [iter_result, solve_result, loaded_A, hmem, mk_run_result]
  · simp [iter_result, solve_result, loaded_A, hmem, mk_run_result]
  · rw [run_matrices_valid env read "umfpack" mt (Or.inr (Or.inr rfl)) (p :: ps)]
    simp

/-- Witness for C1 at the concrete environment env0, whose umfpack
oracle always reports memory exhaustion. -/
theorem umfpack_oom_recovered_witness :
    solve_with_profiling env0 (tocsc (read0 "a.mtx")) (create_b (tocsc (read0 "a.mtx")))
        (("a.mtx".splitOn "/").getLastD "") "def_pos" "umfpack"
      = Except.ok (mk_run_result (tocsc (read0 "a.mtx")) (("a.mtx".splitOn "/").getLastD "")
          "def_pos" env0.startTime env0.endTime "umfpack" true [])
    ∧ (iter_result env0 read0 "umfpack" "def_pos" "a.mtx").relative_error = -1
    ∧ (iter_result env0 read0 "umfpack" "def_pos" "a.mtx").umfpack_error = 1
    ∧ (run_matrices env0 read0 "umfpack" "def_pos" ["a.mtx", "b.mtx"]).1
      = Except.ok (iter_result env0 read0 "umfpack" "def_pos" "a.mtx"
          :: ["b.mtx"].map (iter_result env0 read0 "umfpack" "def_pos")) :=
  umfpack_oom_recovered env0 read0 "def_pos" "a.mtx" ["b.mtx"] rfl

/-- C5: for a valid backend and a positive trial count, main runs the
trials in the outer loop and the matrix paths in the inner loop; each
iteration loads the matrix from its path in the layout its backend
needs (csr for mkl, csc otherwise), builds the right hand side, solves
and appends exactly one RunResult, so the run yields trials times paths
results, in that order, and reads every path once per trial. -/
theorem main_trials_times_paths (env : SolverEnv) (read : String → SpMatrix)
    (ms : List String) (mt lib : String) (n : Int) (p : String)
    (hlib : lib = "mkl" ∨ lib = "superlu" ∨ lib = "umfpack") (hn : 1 ≤ n) :
    (main env read ms mt lib n).1
      = Except.ok (List.flatten (List.replicate n.toNat (ms.map (iter_result env read lib mt))))
    ∧ (main env read ms mt lib n).2 = List.flatten (List.replicate n.toNat ms)
    ∧ (List.flatten (List.replicate n.toNat (ms.map (iter_result env read lib mt)))).length
      = n.toNat * ms.length
    ∧ main_iter env read lib mt p = (Except.ok (iter_result env read lib mt p), [p])
    ∧ (loaded_A read lib p).layout = (if lib = "mkl" then Layout.csr else Layout.csc)
    ∧ iter_result env read lib mt p
      = solve_result env (loaded_A read lib p) (create_b (loaded_A read lib p))
          ((p.splitOn "/").getLastD "") mt lib := by
  have hmain := main_runs_valid env read lib mt ms hlib n.toNat
  refine ⟨?_, ?_, ?_, main_iter_valid env read lib mt p hlib, ?_, rfl⟩
  · unfold main; rw [hmain]
  · unfold main; rw [hmain]
  · rw [join_replicate_length, List.length_map]
  · by_cases h : lib = "mkl" <;> simp [loaded_A, h, tocsr, tocsc]

/-- Witness for C5: two matrix paths, the superlu backend, two trials. -/
theorem main_trials_times_paths_witness :
    (main env1 read0 ["a.mtx", "b.mtx"] "def_pos" "superlu" 2).1
      = Except.ok (List.flatten (List.replicate (2 : Int).toNat
          (["a.mtx", "b.mtx"].map (iter_result env1 read0 "superlu" "def_pos"))))
    ∧ (main env1 read0 ["a.mtx", "b.mtx"] "def_pos" "superlu" 2).2
      = List.flatten (List.replicate (2 : Int).toNat ["a.mtx", "b.mtx"])
    ∧ (List.flatten (List.replicate (2 : Int).toNat
        (["a.mtx", "b.mtx"].map (iter_result env1 read0 "superlu" "def_pos")))).length
      = (2 : Int).toNat * (["a.mtx", "b.mtx"] : List String).length
    ∧ main_iter env1 read0 "superlu" "def_pos" "a.mtx"
      = (Except.ok (iter_result env1 read0 "superlu" "def_pos" "a.mtx"), ["a.mtx"])
    ∧ (loaded_A read0 "superlu" "a.mtx").layout
      = (if "superlu" = "mkl" then Layout.csr else Layout.csc)
    ∧ iter_result env1 read0 "superlu" "def_pos" "a.mtx"
      = solve_result env1 (loaded_A read0 "superlu" "a.mtx")
          (create_b (loaded_A read0 "superlu" "a.mtx"))
          (("a.mtx".splitOn "/").getLastD "") "def_pos" "superlu" :=
  main_trials_times_paths env1 read0 ["a.mtx", "b.mtx"] "def_pos" "superlu" 2 "a.mtx"
    (Or.inr (Or.inl rfl)) (by decide)

/-- C10: for a library value outside the three valid ones and a non
empty matrix list, no branch of the load step assigns A, so main aborts
at the first iteration with the unbound local variable error, before
any file is read and before the invalid backend ValueError branch of
solve_with_profiling can run; for a valid library value, A is assigned
on every iteration and the run succeeds, so that error branch is
unreachable. -/
theorem main_invalid_library_unbound (env : SolverEnv) (read : String → SpMatrix)
    (mt lib p : String) (ps : List String) (n : Int) (v : String)
    (hinv : ¬(lib = "mkl" ∨ lib = "umfpack" ∨ lib = "superlu"))
    (hn : 1 ≤ n)
    (hv : v = "mkl" ∨ v = "superlu" ∨ v = "umfpack") :
    (main env read (p :: ps) mt lib n).1 = Except.error (PyError.nameError unbound_A_msg)
    ∧ (main env read (p :: ps) mt lib n).2 = []
    ∧ isOkE (main env read (p :: ps) mt v n).1 = true := by
  push_neg at hinv
  obtain ⟨hm, hu, hs⟩ := hinv
  have hiter : main_iter env read lib mt p
      = (Except.error (PyError.nameError unbound_A_msg), []) := by
    simp [main_iter, hm, hu, hs]
  have hrm : run_matrices env read lib mt (p :: ps)
      = (Except.error (PyError.nameError unbound_A_msg), []) := by
    simp [run_matrices, hiter]
  obtain ⟨k, hk⟩ : ∃ k, n.toNat = k + 1 := ⟨n.toNat - 1, by omega⟩
  have hmain : main env read (p :: ps) mt lib n
      = (Except.error (PyError.nameError unbound_A_msg), []) := by
    unfold main; rw [hk]; simp [main_runs, hrm]
  refine ⟨by rw [hmain], by rw [hmain], ?_⟩
  have hok := main_runs_valid env read v mt (p :: ps) hv n.toNat
  unfold main; rw [hok]; rfl

/-- Witness for C10 at the invalid library value foo and the valid
value umfpack. -/
theorem main_invalid_library_unbound_witness :
    (main env0 read0 ["m.mtx"] "def_pos" "foo" 1).1
      = Except.error (PyError.nameError unbound_A_msg)
    ∧ (main env0 read0 ["m.mtx"] "def_pos" "foo" 1).2 = []
    ∧ isOkE (main env0 read0 ["m.mtx"] "def_pos" "umfpack" 1).1 = true :=
  main_invalid_library_unbound env0 read0 "def_pos" "foo" "m.mtx" [] 1 "umfpack"
    (by decide) (by decide) (Or.inr (Or.inr rfl))

/-- C9: a non positive run count supplied on the command line makes the
script fail immediately with the descriptive run count ValueError, and
the list of matrix files read is empty: no matrix is loaded. -/
theorem script_nonpositive_runs (env : SolverEnv) (read : String → SpMatrix)
    (glob_sym glob_unsym : List String) (os : OS) (fs : FS)
    (prog lib nstr : String) (n : Int)
    (hlib : lib = "umfpack" ∨ lib = "superlu" ∨ lib = "mkl")
    (hparse : str_to_int nstr = some n) (hn : n ≤ 0) :
    script_run env read glob_sym glob_unsym [prog, lib, nstr] os fs
      = (Except.error (PyError.valueError (runs_msg n)), []) := by
  have hget1 : ([prog, lib, nstr] : List String).getD 1 "" = lib := rfl
  have hget2 : ([prog, lib, nstr] : List String).getD 2 "" = nstr := rfl
  have hval : validate_args [prog, lib, nstr]
      = Except.error (PyError.valueError (runs_msg n)) := by
    simp only [validate_args, parse_int, hget1, hget2, hparse]
    rw [if_pos (show ([prog, lib, nstr] : List String).length = 3 from rfl), if_pos hlib]
    exact if_neg (by omega)
  simp [script_run, hval]

/-- Witness for C9 at run count 0. -/
theorem script_nonpositive_runs_witness :
    script_run env0 read0 ["data/a.mtx"] ["data/b.mtx"]
        ["solver.py", "umfpack", "0"] OS.linux []
      = (Except.error (PyError.valueError (runs_msg 0)), []) :=
  script_nonpositive_runs env0 read0 ["data/a.mtx"] ["data/b.mtx"] OS.linux []
    "solver.py" "umfpack" "0" 0 (Or.inl rfl) (by decide) (by decide)

/-- C7: header creation is idempotent.  Logging twice to a fresh
destination produces a file with exactly one header line followed by the
data rows of both invocations, in order, never two headers; and logging
to an existing destination appends the new rows after the existing
content without rewriting the header. -/
theorem log_results_single_header (os : OS) (fn : String) (fs : FS)
    (r1 r2 rx : List RunResult) (g : FS) (old : List Line)
    (hfresh : fsLookup fs (log_filepath os fn) = none)
    (hne : r1 ≠ [] ∨ r2 ≠ [])
    (hg : fsLookup g (log_filepath os fn) = some old) :
    fsLookup (log_results r2 os fn (log_results r1 os fn fs)) (log_filepath os fn)
      = some (Line.header :: (r1.map (fun x => Line.row (result_row (system_type os) x))
          ++ r2.map (fun x => Line.row (result_row (system_type os) x))))
    ∧ fsLookup (log_results rx os fn g) (log_filepath os fn)
      = some (old ++ rx.map (fun x => Line.row (result_row (system_type os) x))) := by
  refine ⟨?_, log_results_existing os fn g old rx hg⟩
  by_cases h1 : r1 = []
  · subst h1
    have h2 : r2 ≠ [] := by
      rcases hne with h | h
      · exact absurd rfl h
      · exact h
    rw [show log_results [] os fn fs = fs from rfl]
    simpa using log_results_fresh os fn fs r2 hfresh h2
  · have hfirst := log_results_fresh os fn fs r1 hfresh h1
    have hsecond := log_results_existing os fn (log_results r1 os fn fs)
      (Line.header :: r1.map (fun x => Line.row (result_row (system_type os) x))) r2 hfirst
    simpa using hsecond

/-- Witness for C7 on an empty filesystem and one row per invocation. -/
theorem log_results_single_header_witness :
    fsLookup (log_results [rr0] OS.linux "python-result-log"
        (log_results [rr0] OS.linux "python-result-log" []))
        (log_filepath OS.linux "python-result-log")
      = some (Line.header
          :: ([rr0].map (fun x => Line.row (result_row (system_type OS.linux) x))
            ++ [rr0].map (fun x => Line.row (result_row (system_type OS.linux) x))))
    ∧ fsLookup (log_results [rr0] OS.linux "python-result-log"
        [(log_filepath OS.linux "python-result-log", [Line.header])])
        (log_filepath OS.linux "python-result-log")
      = some ([Line.header]
          ++ [rr0].map (fun x => Line.row (result_row (system_type OS.linux) x))) :=
  log_results_single_header OS.linux "python-result-log" [] [rr0] [rr0] [rr0]
    [(log_filepath OS.linux "python-result-log", [Line.header])] [Line.header]
    rfl (Or.inl (by simp)) (by simp [fsLookup])

end Solver
